import Mathlib

/-!
Verification development for the telephony/agent relay repository
(`main.py`, `database.py`, `meeting_functions.py`).

The Python source is shallowly embedded: dictionaries become an explicit
JSON value type `JVal`, the sqlite booking store becomes an explicit
in-memory state `DB` threaded through the functions, socket sends become
output lists, and the external `json.loads` call is an explicit parameter
(an oracle `String → Except String _` recording whether Python would have
parsed the string or raised).  Definition names follow the Python source.
-/

/-- A JSON value, the embedding of the Python dictionaries the code builds
and serializes.  Objects keep their fields in construction order. -/
inductive JVal where
  | jnull : JVal
  | jbool (b : Bool) : JVal
  | jnum (n : Nat) : JVal
  | jstr (s : String) : JVal
  | jobj (fields : List (String × JVal)) : JVal

/-- Escape one character as Python `json.dumps` does for the characters the
code can produce (backslash and double quote). -/
def escapeJsonChar (c : Char) : String :=
  if c = '\\' then "\\\\"
  else if c = '"' then "\\\""
  else String.singleton c

/-- Escape a string body as Python `json.dumps` does. -/
def escapeJson (s : String) : String :=
  String.join (s.toList.map escapeJsonChar)

mutual

/-- Embedding of Python `json.dumps` (default separators) on the values the
code serializes. -/
def jsonDumps : JVal → String
  | .jnull => "null"
  | .jbool true => "true"
  | .jbool false => "false"
  | .jnum n => toString n
  | .jstr s => "\"" ++ escapeJson s ++ "\""
  | .jobj fields => "\x7b" ++ jsonDumpsFields fields ++ "\x7d"

/-- Serialize the field list of a JSON object, comma separated. -/
def jsonDumpsFields : List (String × JVal) → String
  | [] => ""
  | [(k, v)] => "\"" ++ escapeJson k ++ "\": " ++ jsonDumps v
  | (k, v) :: f :: rest =>
      "\"" ++ escapeJson k ++ "\": " ++ jsonDumps v ++ ", " ++
        jsonDumpsFields (f :: rest)

end

/-- Look a key up in a JSON object's field list (first occurrence). -/
def jlookup (v : JVal) (key : String) : Option JVal :=
  match v with
  | .jobj fields => (fields.lookup key)
  | _ => none

/-- One row of the `bookings` table created by `database.init_db`:
`id INTEGER PRIMARY KEY AUTOINCREMENT, customer_name TEXT NOT NULL,
booking_time TEXT NOT NULL UNIQUE, status TEXT DEFAULT 'confirmed'`. -/
structure Booking where
  id : Nat
  customer_name : String
  booking_time : String
  status : String

/-- The booking store state: the rows of the `bookings` table plus the next
AUTOINCREMENT id sqlite would assign. -/
structure DB where
  rows : List Booking
  nextId : Nat

/-- The store as `database.init_db` leaves it on a fresh database: no rows,
AUTOINCREMENT starting at 1. -/
def dbInit : DB := { rows := [], nextId := 1 }

namespace database

/-- Embedding of `database.check_availability`: `SELECT 1 FROM bookings
WHERE booking_time = ?` and return whether no row was found. -/
def check_availability (db : DB) (booking_time : String) : Bool :=
  !(db.rows.any (fun b => b.booking_time == booking_time))

/-- The sqlite errors `database.add_booking` distinguishes: the
`sqlite3.IntegrityError` raised by the UNIQUE constraint on
`booking_time`, and any other exception (carrying its `str(e)` text). -/
inductive SqlErr where
  | integrityError : SqlErr
  | otherErr (msg : String) : SqlErr

/-- Embedding of the `INSERT INTO bookings (customer_name, booking_time)
VALUES (?, ?)` statement inside `add_booking`: the UNIQUE constraint on
`booking_time` makes the insert raise `IntegrityError` when a row with the
same time exists; otherwise the row is inserted and `cursor.lastrowid` is
the assigned id. -/
def sqlInsert (db : DB) (customer_name booking_time : String) :
    Except SqlErr (DB × Nat) :=
  if db.rows.any (fun b => b.booking_time == booking_time) then
    .error .integrityError
  else
    .ok ({ rows := db.rows ++
             [{ id := db.nextId, customer_name := customer_name,
                booking_time := booking_time, status := "confirmed" }],
           nextId := db.nextId + 1 }, db.nextId)

/-- The `try`/`except` result wrapping of `database.add_booking`: success
dict on a completed insert, the fixed "Slot already booked." dict on
`IntegrityError`, and `str(e)` as the message on any other exception. -/
def add_bookingHandle (db : DB) : Except SqlErr (DB × Nat) → JVal × DB
  | .ok (db2, booking_id) =>
      (.jobj [("success", .jbool true), ("booking_id", .jnum booking_id),
              ("message", .jstr "Booking confirmed.")], db2)
  | .error .integrityError =>
      (.jobj [("success", .jbool false),
              ("message", .jstr "Slot already booked.")], db)
  | .error (.otherErr m) =>
      (.jobj [("success", .jbool false), ("message", .jstr m)], db)

/-- Embedding of `database.add_booking`. -/
def add_booking (db : DB) (customer_name booking_time : String) : JVal × DB :=
  add_bookingHandle db (sqlInsert db customer_name booking_time)

end database

/-! ### The time-format validation (`datetime.strptime(t, "%Y-%m-%d %H:%M")`)

`meeting_functions` validates times with `datetime.strptime`.  The format
compiles to the regex `(?P<Y>\d\d\d\d)-(?P<m>1[0-2]|0[1-9]|[1-9])-`
`(?P<d>3[01]|[12]\d|0[1-9]|[1-9])\s+(?P<H>2[0-3]|[0-1]\d|\d):`
`(?P<M>[0-5]\d|\d)` matched against the whole string, followed by the
`datetime` constructor's range checks (year ≥ 1, day within the month,
Gregorian leap years).  Because every field is followed by a non-digit
literal, the regex with backtracking accepts exactly: a 4-digit year, then
each later field a run of one or two digits whose value lies in the field's
range, with the day further bounded by the month length. -/

/-- Split a character list into its longest digit run and the rest. -/
def splitDigits : List Char → List Char × List Char
  | [] => ([], [])
  | c :: cs =>
      if c.isDigit then
        let p := splitDigits cs
        (c :: p.1, p.2)
      else ([], c :: cs)

/-- Numeric value of a digit run. -/
def digitsVal (ds : List Char) : Nat :=
  ds.foldl (fun a c => a * 10 + (c.toNat - 48)) 0

/-- Gregorian leap-year rule used by `datetime`. -/
def isLeap (y : Nat) : Bool :=
  (y % 4 == 0 && y % 100 != 0) || (y % 400 == 0)

/-- Days in a month, as validated by the `datetime` constructor. -/
def daysInMonth (y m : Nat) : Nat :=
  if m == 2 then (if isLeap y then 29 else 28)
  else if m == 4 || m == 6 || m == 9 || m == 11 then 30
  else 31

/-- Consume the `\s+` that a space in a strptime format stands for: at
least one whitespace character, maximal run. -/
def skipWs : List Char → Option (List Char)
  | c :: cs => if c.isWhitespace then some (cs.dropWhile Char.isWhitespace) else none
  | [] => none

/-- Parse `YYYY-MM-DD HH:MM` per `datetime.strptime`, returning the five
fields on success. -/
def parseTimeFields (cs : List Char) : Option (Nat × Nat × Nat × Nat × Nat) :=
  let py := splitDigits cs
  if py.1.length != 4 then none else
  match py.2 with
  | '-' :: r2 =>
    let pm := splitDigits r2
    if pm.1.length == 0 || 2 < pm.1.length then none else
    match pm.2 with
    | '-' :: r4 =>
      let pd := splitDigits r4
      if pd.1.length == 0 || 2 < pd.1.length then none else
      match skipWs pd.2 with
      | some r6 =>
        let ph := splitDigits r6
        if ph.1.length == 0 || 2 < ph.1.length then none else
        match ph.2 with
        | ':' :: r8 =>
          let pmin := splitDigits r8
          if pmin.1.length == 0 || 2 < pmin.1.length then none else
          if !pmin.2.isEmpty then none else
          let y := digitsVal py.1
          let mo := digitsVal pm.1
          let d := digitsVal pd.1
          let h := digitsVal ph.1
          let mi := digitsVal pmin.1
          if 1 ≤ y && 1 ≤ mo && mo ≤ 12 && 1 ≤ d && d ≤ daysInMonth y mo &&
              h ≤ 23 && mi ≤ 59 then
            some (y, mo, d, h, mi)
          else none
        | _ => none
      | none => none
    | _ => none
  | _ => none

/-- Whether `datetime.strptime(s, "%Y-%m-%d %H:%M")` succeeds. -/
def validTime (s : String) : Bool :=
  (parseTimeFields s.toList).isSome

/-- A store access performed by the meeting functions, recorded so that
"performs no store access" is statable: a `SELECT` by time or an
`INSERT`. -/
inductive StoreOp where
  | query (booking_time : String) : StoreOp
  | insert (customer_name booking_time : String) : StoreOp

namespace meeting_functions

/-- The format-error dict both meeting functions return on a malformed
time string. -/
def fmtErr : JVal :=
  .jobj [("error", .jstr "Invalid time format. Please use YYYY-MM-DD HH:MM")]

/-- Embedding of `meeting_functions.book_meeting`.  Returns the result
dict, the store state after the call, and the list of store accesses
performed. -/
def book_meeting (db : DB) (customer_name booking_time : String) :
    JVal × DB × List StoreOp :=
  if !(validTime booking_time) then (fmtErr, db, [])
  else if !(database.check_availability db booking_time) then
    (.jobj [("error", .jstr ("Slot " ++ booking_time ++ " is already booked."))],
     db, [.query booking_time])
  else
    let r := database.add_booking db customer_name booking_time
    (r.1, r.2, [.query booking_time, .insert customer_name booking_time])

/-- Embedding of `meeting_functions.check_availability`.  Returns the
result dict and the list of store accesses performed (the store is not
modified). -/
def check_availability (db : DB) (booking_time : String) :
    JVal × List StoreOp :=
  if !(validTime booking_time) then (fmtErr, [])
  else if database.check_availability db booking_time then
    (.jobj [("available", .jbool true),
            ("message", .jstr ("Slot " ++ booking_time ++ " is available."))],
     [.query booking_time])
  else
    (.jobj [("available", .jbool false),
            ("message", .jstr ("Slot " ++ booking_time ++ " is not available."))],
     [.query booking_time])

end meeting_functions

/-! ### Tool registry and function-call dispatch (`main.py`)

`main.py` merges `PHARMACY_MAP` (from `pharmacy_functions`, a module not in
this repository's sources) with `MEETING_MAP` via
`FUNCTION_MAP = {**PHARMACY_MAP, **MEETING_MAP}`.  The pharmacy map is kept
abstract as a parameter; dict-merge lookup prefers the meeting map's
binding for a shared key.  A handler models a Python callable invoked as
`handler(**arguments)`: it receives the named-argument bundle and the store
state, and either returns a value or raises (`Except.error` carrying the
exception's `str`).  `json.loads` and `str`-typed exception texts are
external, so argument parsing is an explicit oracle parameter. -/

/-- A named-argument bundle, the result of `json.loads` on an `arguments`
string. -/
def Args := List (String × JVal)

/-- A tool handler: named arguments and store state in, result dict plus
updated store and access log out, or a raised exception's text. -/
def Handler := Args → DB → Except String (JVal × DB × List StoreOp)

namespace meeting_functions

/-- The Python call `book_meeting(**arguments)`: keyword binding requires
exactly the keys `customer_name` and `booking_time`; a missing or extra
key raises `TypeError`, and a non-string value makes `strptime` raise
`TypeError` before anything else happens. -/
def book_meetingHandler : Handler := fun args db =>
  match args.lookup "customer_name", args.lookup "booking_time" with
  | some (.jstr n), some (.jstr t) =>
      if args.length == 2 then .ok (book_meeting db n t)
      else .error "TypeError: unexpected keyword argument"
  | _, _ => .error "TypeError: missing or non-string keyword argument"

/-- The Python call `check_availability(**arguments)`: keyword binding
requires exactly the key `booking_time`. -/
def check_availabilityHandler : Handler := fun args db =>
  match args.lookup "booking_time" with
  | some (.jstr t) =>
      if args.length == 1 then
        let r := check_availability db t
        .ok (r.1, db, r.2)
      else .error "TypeError: unexpected keyword argument"
  | _ => .error "TypeError: missing or non-string keyword argument"

/-- `meeting_functions.FUNCTION_MAP`. -/
def FUNCTION_MAP : List (String × Handler) :=
  [("book_meeting", book_meetingHandler),
   ("check_availability", check_availabilityHandler)]

end meeting_functions

/-- Lookup in `FUNCTION_MAP = {**PHARMACY_MAP, **MEETING_MAP}`: the meeting
map's binding wins for a key present in both, as the later `**` unpacking
overrides the earlier one. -/
def FUNCTION_MAP_lookup (pharmacyMap : List (String × Handler))
    (name : String) : Option Handler :=
  match meeting_functions.FUNCTION_MAP.lookup name with
  | some h => some h
  | none => pharmacyMap.lookup name

/-- Embedding of `main.execute_function_call`: names found in the registry
are invoked (and may raise); any other name yields the error dict
`unknown function: <name>` without touching the store. -/
def execute_function_call (pharmacyMap : List (String × Handler)) (db : DB)
    (func_name : String) (arguments : Args) :
    Except String (JVal × DB × List StoreOp) :=
  match FUNCTION_MAP_lookup pharmacyMap func_name with
  | some h => h arguments db
  | none =>
      .ok (.jobj [("error", .jstr ("unknown function: " ++ func_name))],
           db, [])

/-- Embedding of `main.create_function_call_response`. -/
def create_function_call_response (func_id func_name : String)
    (result : JVal) : JVal :=
  .jobj [("type", .jstr "FunctionCallResponse"),
         ("id", .jstr func_id),
         ("name", .jstr func_name),
         ("content", .jstr (jsonDumps result))]

/-- One entry of a `FunctionCallRequest`'s `functions` array: correlation
id, tool name, and the raw `arguments` string (parsed by `json.loads` at
dispatch time). -/
structure FnCallEntry where
  id : String
  name : String
  arguments : String

/-- An observable action of the function-call dispatch loop, in program
order: the start of a dispatch (the `execute_function_call` invocation for
an entry), or a message sent over the agent connection. -/
inductive TraceEv where
  | dispatch (name : String) (args : Args) : TraceEv
  | send (msg : JVal) : TraceEv

/-- The `json.loads` oracle for `arguments` strings: `.ok` with the parsed
bundle when Python would parse the string, `.error` with the exception
text when `json.loads` would raise. -/
def JsonLoads := String → Except String Args

/-- The loop body of `main.handle_function_call_request` over
`decoded["functions"]`, inside its single `try`: each entry's arguments
are parsed, the entry is dispatched, and its response is sent before the
next entry is looked at; the first exception (unparseable arguments or a
raising handler) is caught outside the loop, one error response is sent
for the current entry's id and name, and the remaining entries are
abandoned. -/
def processCalls (loads : JsonLoads) (pharmacyMap : List (String × Handler)) :
    DB → List FnCallEntry → DB × List TraceEv
  | db, [] => (db, [])
  | db, fc :: rest =>
    match loads fc.arguments with
    | .error e =>
        (db, [.send (create_function_call_response fc.id fc.name
                (.jobj [("error", .jstr ("Function call failed with: " ++ e))]))])
    | .ok args =>
      match execute_function_call pharmacyMap db fc.name args with
      | .error e =>
          (db, [.dispatch fc.name args,
                .send (create_function_call_response fc.id fc.name
                  (.jobj [("error", .jstr ("Function call failed with: " ++ e))]))])
      | .ok (result, db2, _) =>
          let r := processCalls loads pharmacyMap db2 rest
          (r.1, .dispatch fc.name args ::
                .send (create_function_call_response fc.id fc.name result) :: r.2)

/-- A decoded agent control message as the handlers consume it: the `type`
discriminator and, for a `FunctionCallRequest`, the `functions` array. -/
structure ControlMsg where
  type : String
  functions : List FnCallEntry

/-- Embedding of `main.handle_function_call_request`. -/
def handle_function_call_request (loads : JsonLoads)
    (pharmacyMap : List (String × Handler)) (db : DB)
    (decoded : ControlMsg) : DB × List TraceEv :=
  processCalls loads pharmacyMap db decoded.functions

/-- The `clear` event `handle_barge_in` sends to the telephony socket. -/
def clear_message (streamsid : String) : JVal :=
  .jobj [("event", .jstr "clear"), ("streamSid", .jstr streamsid)]

/-- Embedding of `main.handle_barge_in`: the list of messages sent to the
telephony socket (one `clear` event on `UserStartedSpeaking`, nothing
otherwise). -/
def handle_barge_in (decoded : ControlMsg) (streamsid : String) : List JVal :=
  if decoded.type == "UserStartedSpeaking" then [clear_message streamsid]
  else []

/-- Embedding of `main.handle_text_message`: returns the messages sent to
the telephony socket, the dispatch trace on the agent connection, and the
resulting store state. -/
def handle_text_message (loads : JsonLoads)
    (pharmacyMap : List (String × Handler)) (db : DB) (decoded : ControlMsg)
    (streamsid : String) : List JVal × List TraceEv × DB :=
  let twilioOut := handle_barge_in decoded streamsid
  if decoded.type == "FunctionCallRequest" then
    let r := handle_function_call_request loads pharmacyMap db decoded
    (twilioOut, r.2, r.1)
  else (twilioOut, [], db)

/-! ### Agent ingress receiver (`main.sts_receiver`) -/

/-- Base64 alphabet used by `base64.b64encode`. -/
def b64Alphabet : List Char :=
  "ABCDEFGHIJKLMNOPQRSTUVWXYZabcdefghijklmnopqrstuvwxyz0123456789+/".toList

/-- The base64 digit for a 6-bit group. -/
def b64Char (n : Nat) : Char := b64Alphabet.getD n 'A'

/-- Embedding of `base64.b64encode(...).decode("ascii")` on a byte list. -/
def b64encode : List Nat → String
  | b1 :: b2 :: b3 :: rest =>
      let n := (b1 % 256) * 65536 + (b2 % 256) * 256 + b3 % 256
      String.mk [b64Char (n / 262144), b64Char (n / 4096 % 64),
                 b64Char (n / 64 % 64), b64Char (n % 64)] ++ b64encode rest
  | [b1, b2] =>
      let n := (b1 % 256) * 65536 + (b2 % 256) * 256
      String.mk [b64Char (n / 262144), b64Char (n / 4096 % 64),
                 b64Char (n / 64 % 64), '=']
  | [b1] =>
      let n := (b1 % 256) * 65536
      String.mk [b64Char (n / 262144), b64Char (n / 4096 % 64), '=', '=']
  | [] => ""

/-- The telephony `media` event `sts_receiver` builds for a binary agent
frame. -/
def media_message (streamsid : String) (raw_mulaw : List Nat) : JVal :=
  .jobj [("event", .jstr "media"), ("streamSid", .jstr streamsid),
         ("media", .jobj [("payload", .jstr (b64encode raw_mulaw))])]

/-- A frame received from the agent connection: a text frame (raw string,
fed to `json.loads`) or a binary audio frame. -/
inductive StsMsg where
  | text (s : String) : StsMsg
  | binary (payload : List Nat) : StsMsg

/-- A decoded agent text frame as it flows through `sts_receiver`: the
`decoded["type"]` subscript has a value (a failure there escapes the read
loop, see `CtlLoads`), while `functions` records the outcome of the
`decoded["functions"]` subscript.  That subscript is evaluated only inside
`handle_function_call_request`'s `try` (main.py line 63), so a `KeyError`
there is caught like any other entry failure rather than ending the
loop. -/
structure DecodedMsg where
  type : String
  functions : Except String (List FnCallEntry)

/-- The oracle for `json.loads` on an agent text frame followed by the
`decoded["type"]` access: `.ok` with the decoded message when Python
obtains a `type`, `.error` with the exception text when `json.loads`
raises (invalid JSON) or the `["type"]` subscript raises (non-object
value, missing key) — both are uncaught in `sts_receiver` and
`handle_text_message` and escape the read loop. -/
def CtlLoads := String → Except String DecodedMsg

/-- The `try` of `main.handle_function_call_request` seen from the raw
decoded dict: the `decoded["functions"]` subscript runs inside the `try`,
so when it raises the `except` arm sends one error response whose id and
name are `unknown` (neither `func_id` nor `func_name` is bound yet);
when it yields an entry list, the dispatch loop over it is
`processCalls`. -/
def handle_function_call_request_decoded (loads : JsonLoads)
    (pharmacyMap : List (String × Handler)) (db : DB)
    (decoded : DecodedMsg) : DB × List TraceEv :=
  match decoded.functions with
  | .error e =>
      (db, [.send (create_function_call_response "unknown" "unknown"
        (.jobj [("error", .jstr ("Function call failed with: " ++ e))]))])
  | .ok fns => processCalls loads pharmacyMap db fns

/-- Embedding of `main.handle_text_message` on the raw decoded dict.
`handle_barge_in` inspects only the `type` discriminator, so it is passed
the message's type with an empty entry list. -/
def handle_text_message_decoded (loads : JsonLoads)
    (pharmacyMap : List (String × Handler)) (db : DB) (decoded : DecodedMsg)
    (streamsid : String) : List JVal × List TraceEv × DB :=
  let twilioOut := handle_barge_in ⟨decoded.type, []⟩ streamsid
  if decoded.type == "FunctionCallRequest" then
    let r := handle_function_call_request_decoded loads pharmacyMap db decoded
    (twilioOut, r.2, r.1)
  else (twilioOut, [], db)

/-- The outcome of one run of the `sts_receiver` read loop over a list of
received frames: everything sent to the telephony socket, the dispatch
trace on the agent connection, the final store state, and — because the
loop body has no exception handler — the text of the exception that
escaped the loop, if one did. -/
structure StsRun where
  twilioOut : List JVal
  stsTrace : List TraceEv
  db : DB
  exc : Option String

/-- Embedding of the read loop of `main.sts_receiver` (after the streamsid
rendezvous): text frames are decoded and handed to `handle_text_message`,
binary frames are wrapped as telephony `media` events; an uncaught
exception in the body (`json.loads` on a malformed text frame, or the
`decoded["type"]` access) propagates out of the loop, ending the task
with the remaining messages unprocessed. -/
def sts_receiver (loadsCtl : CtlLoads) (loads : JsonLoads)
    (pharmacyMap : List (String × Handler)) (streamsid : String) :
    DB → List StsMsg → StsRun
  | db, [] => { twilioOut := [], stsTrace := [], db := db, exc := none }
  | db, .text s :: rest =>
    match loadsCtl s with
    | .error e => { twilioOut := [], stsTrace := [], db := db, exc := some e }
    | .ok decoded =>
        let h := handle_text_message_decoded loads pharmacyMap db decoded
          streamsid
        let r := sts_receiver loadsCtl loads pharmacyMap streamsid h.2.2 rest
        { twilioOut := h.1 ++ r.twilioOut, stsTrace := h.2.1 ++ r.stsTrace,
          db := r.db, exc := r.exc }
  | db, .binary raw_mulaw :: rest =>
      let r := sts_receiver loadsCtl loads pharmacyMap streamsid db rest
      { twilioOut := media_message streamsid raw_mulaw :: r.twilioOut,
        stsTrace := r.stsTrace, db := r.db, exc := r.exc }

/-! ### Telephony ingress reader (`main.twilio_receiver`)

Events arrive as JSON text frames; `media` events carry a base64 payload
that the code decodes before buffering, so the embedding carries each
`media` event's payload already decoded to bytes. -/

/-- `BUFFER_SIZE` from `twilio_receiver`: the fixed audio frame size. -/
def BUFFER_SIZE : Nat := 20 * 160

/-- A structural event of the telephony media stream, as dispatched on
`data["event"]`. -/
inductive TwEvent where
  | connected : TwEvent
  | start (streamSid : String) : TwEvent
  | media (track : String) (payload : List Nat) : TwEvent
  | stop : TwEvent

/-- The state of the `twilio_receiver` loop: the accumulation buffer, the
frames put on `audio_queue` (in order), the identifiers put on
`streamsid_queue` (in order), and whether a `stop` event ended the loop. -/
structure TwState where
  inbuffer : List Nat
  frames : List (List Nat)
  streamsids : List String
  stopped : Bool

/-- The loop state before the first event. -/
def twilioInit : TwState :=
  { inbuffer := [], frames := [], streamsids := [], stopped := false }

/-- The inner `while len(inbuffer) >= BUFFER_SIZE` loop: slice off
`BUFFER_SIZE`-byte frames while possible, returning the frames in order
and the remaining buffer. -/
def drainBuffer (buf : List Nat) : List (List Nat) × List Nat :=
  if h : BUFFER_SIZE ≤ buf.length then
    let r := drainBuffer (buf.drop BUFFER_SIZE)
    (buf.take BUFFER_SIZE :: r.1, r.2)
  else ([], buf)
termination_by buf.length
decreasing_by
  simp only [List.length_drop]
  have hpos : 0 < BUFFER_SIZE := by simp [BUFFER_SIZE]
  omega

/-- Run the inner drain loop on a state, appending the sliced frames to
the audio queue. -/
def drainInto (s : TwState) : TwState :=
  let d := drainBuffer s.inbuffer
  { s with frames := s.frames ++ d.1, inbuffer := d.2 }

/-- One iteration of the `twilio_receiver` loop on one event.  `connected`
skips the drain via `continue`; `start` publishes the streamsid; `media`
appends the decoded payload to the buffer when the track is `inbound`;
`stop` breaks out of the loop (no further event is processed, and the
drain after `stop` does not run). -/
def twilio_step (s : TwState) (e : TwEvent) : TwState :=
  if s.stopped then s
  else
    match e with
    | .connected => s
    | .start sid => drainInto { s with streamsids := s.streamsids ++ [sid] }
    | .media track payload =>
        drainInto { s with inbuffer :=
          if track == "inbound" then s.inbuffer ++ payload else s.inbuffer }
    | .stop => { s with stopped := true }

/-- Embedding of `main.twilio_receiver` over a list of received events. -/
def twilio_receiver (evs : List TwEvent) : TwState :=
  evs.foldl twilio_step twilioInit

/-! ### Helper lemmas -/

/-- Whether a JSON value is an object (a Python dict). -/
def isJObj : JVal → Bool
  | .jobj _ => true
  | _ => false

/-- Whether a message sent to the telephony socket is a `clear` event. -/
def isClearEvent (v : JVal) : Bool :=
  match jlookup v "event" with
  | some (.jstr s) => s == "clear"
  | _ => false

theorem handle_text_message_fst (loads : JsonLoads)
    (pharmacyMap : List (String × Handler)) (db : DB) (decoded : ControlMsg)
    (streamsid : String) :
    (handle_text_message loads pharmacyMap db decoded streamsid).1 =
      handle_barge_in decoded streamsid := by
  unfold handle_text_message
  split <;> rfl

/-! ### The claims -/

/-- Claim C2 counterexample: on the store left by `init_db`,
`book_meeting("John Doe", "2025-12-25 10:00")` succeeds, but the
immediately following `book_meeting("Jane Doe", "2025-12-25 10:00")` does
not return `\x7b"success": false, "message": "Slot already booked."\x7d`:
the availability pre-check intercepts the duplicate and returns an
`error`-keyed dict instead. -/
theorem claim_c2_counterexample :
    jlookup (meeting_functions.book_meeting dbInit "John Doe"
        "2025-12-25 10:00").1 "success" = some (.jbool true) ∧
    (meeting_functions.book_meeting
        (meeting_functions.book_meeting dbInit "John Doe"
          "2025-12-25 10:00").2.1
        "Jane Doe" "2025-12-25 10:00").1 ≠
      .jobj [("success", .jbool false),
             ("message", .jstr "Slot already booked.")] := by
  refine ⟨rfl, ?_⟩
  intro h
  have h2 : (JVal.jobj [("error",
        .jstr "Slot 2025-12-25 10:00 is already booked.")]) =
      .jobj [("success", .jbool false),
             ("message", .jstr "Slot already booked.")] := h
  simp at h2

/-- Claim C2 (amended): on a store with no booking at the slot,
`book_meeting("John Doe", "2025-12-25 10:00")` succeeds with a booking id,
and an immediately following `book_meeting("Jane Doe", "2025-12-25 10:00")`
returns exactly
`\x7b"error": "Slot 2025-12-25 10:00 is already booked."\x7d`. -/
theorem claim_c2_double_booking :
    (meeting_functions.book_meeting dbInit "John Doe"
        "2025-12-25 10:00").1 =
      .jobj [("success", .jbool true), ("booking_id", .jnum 1),
             ("message", .jstr "Booking confirmed.")] ∧
    (meeting_functions.book_meeting
        (meeting_functions.book_meeting dbInit "John Doe"
          "2025-12-25 10:00").2.1
        "Jane Doe" "2025-12-25 10:00").1 =
      .jobj [("error",
        .jstr "Slot 2025-12-25 10:00 is already booked.")] :=
  ⟨rfl, rfl⟩

/-- Claim C3: for every function name absent from the merged tool registry
and every argument bundle, `execute_function_call` returns (never raises)
the error dict `unknown function: <name>`, leaving the store untouched and
performing no store access. -/
theorem claim_c3_unknown_function (pharmacyMap : List (String × Handler))
    (db : DB) (func_name : String) (arguments : Args)
    (h : FUNCTION_MAP_lookup pharmacyMap func_name = none) :
    execute_function_call pharmacyMap db func_name arguments =
      .ok (.jobj [("error", .jstr ("unknown function: " ++ func_name))],
           db, []) := by
  unfold execute_function_call
  rw [h]

/-- Witness for C3 at the concrete absent name `refill_prescription`. -/
theorem claim_c3_witness :
    FUNCTION_MAP_lookup [] "refill_prescription" = none ∧
    execute_function_call [] dbInit "refill_prescription" [] =
      .ok (.jobj [("error", .jstr "unknown function: refill_prescription")],
           dbInit, []) :=
  ⟨rfl, claim_c3_unknown_function [] dbInit "refill_prescription" [] rfl⟩

/-- Claim C7: a time string rejected by the `strptime` validation makes
both `book_meeting` and `check_availability` return the format-error dict
with an empty store-access log (no query, no insert) and an unchanged
store. -/
theorem claim_c7_validation_precedes_store (db : DB)
    (customer_name booking_time : String)
    (h : validTime booking_time = false) :
    meeting_functions.book_meeting db customer_name booking_time =
      (meeting_functions.fmtErr, db, []) ∧
    meeting_functions.check_availability db booking_time =
      (meeting_functions.fmtErr, []) := by
  constructor
  · unfold meeting_functions.book_meeting
    rw [h]
    rfl
  · unfold meeting_functions.check_availability
    rw [h]
    rfl

/-- Witness for C7 at the concrete malformed time `not-a-date`. -/
theorem claim_c7_witness :
    validTime "not-a-date" = false ∧
    meeting_functions.check_availability dbInit "not-a-date" =
      (meeting_functions.fmtErr, []) ∧
    meeting_functions.book_meeting dbInit "John Doe" "not-a-date" =
      (meeting_functions.fmtErr, dbInit, []) :=
  ⟨rfl,
   (claim_c7_validation_precedes_store dbInit "John Doe" "not-a-date" rfl).2,
   (claim_c7_validation_precedes_store dbInit "John Doe" "not-a-date" rfl).1⟩

/-- Claim C8: for a valid time string on a store with no booking at that
time, `check_availability` reports `available = true`; after a successful
`book_meeting` for the same time (which the same hypotheses make succeed),
`check_availability` reports `available = false` — both functions going
through the store's existence-check-by-time. -/
theorem claim_c8_availability_relation (db : DB)
    (customer_name booking_time : String)
    (hv : validTime booking_time = true)
    (hfree : database.check_availability db booking_time = true) :
    (meeting_functions.check_availability db booking_time).1 =
      .jobj [("available", .jbool true),
             ("message",
               .jstr ("Slot " ++ booking_time ++ " is available."))] ∧
    (meeting_functions.book_meeting db customer_name booking_time).1 =
      .jobj [("success", .jbool true), ("booking_id", .jnum db.nextId),
             ("message", .jstr "Booking confirmed.")] ∧
    (meeting_functions.check_availability
        (meeting_functions.book_meeting db customer_name booking_time).2.1
        booking_time).1 =
      .jobj [("available", .jbool false),
             ("message",
               .jstr ("Slot " ++ booking_time ++ " is not available."))] := by
  have hany : db.rows.any (fun b => b.booking_time == booking_time) = false := by
    simpa [database.check_availability] using hfree
  refine ⟨?_, ?_, ?_⟩
  · simp [meeting_functions.check_availability, hv,
          database.check_availability, hany]
  · simp [meeting_functions.book_meeting, hv, database.check_availability,
          hany, database.add_booking, database.sqlInsert,
          database.add_bookingHandle]
  · simp [meeting_functions.book_meeting, meeting_functions.check_availability,
          hv, database.check_availability, hany, database.add_booking,
          database.sqlInsert, database.add_bookingHandle, List.any_append]

/-- Witness for C8 at the fresh store and the concrete valid time
`2025-12-25 10:00`. -/
theorem claim_c8_witness :
    validTime "2025-12-25 10:00" = true ∧
    database.check_availability dbInit "2025-12-25 10:00" = true ∧
    (meeting_functions.check_availability dbInit "2025-12-25 10:00").1 =
      .jobj [("available", .jbool true),
             ("message", .jstr "Slot 2025-12-25 10:00 is available.")] ∧
    (meeting_functions.check_availability
        (meeting_functions.book_meeting dbInit "John Doe"
          "2025-12-25 10:00").2.1 "2025-12-25 10:00").1 =
      .jobj [("available", .jbool false),
             ("message", .jstr "Slot 2025-12-25 10:00 is not available.")] :=
  ⟨rfl, rfl,
   (claim_c8_availability_relation dbInit "John Doe" "2025-12-25 10:00"
      rfl rfl).1,
   (claim_c8_availability_relation dbInit "John Doe" "2025-12-25 10:00"
      rfl rfl).2.2⟩

/-- Claim C10: `database.add_booking` is total over results.  On a free
slot it returns the success dict carrying the AUTOINCREMENT id; on a
duplicate `booking_time` the insert's `IntegrityError` is mapped to exactly
the "Slot already booked." dict; the `except Exception` arm maps any other
store error to a dict carrying its text; and every outcome of the
`try`/`except` wrapper is a dict. -/
theorem claim_c10_add_booking_total :
    (∀ (db : DB) (customer_name booking_time : String),
      database.add_booking db customer_name booking_time =
        if db.rows.any (fun b => b.booking_time == booking_time) then
          (.jobj [("success", .jbool false),
                  ("message", .jstr "Slot already booked.")], db)
        else
          (.jobj [("success", .jbool true), ("booking_id", .jnum db.nextId),
                  ("message", .jstr "Booking confirmed.")],
           { rows := db.rows ++
               [{ id := db.nextId, customer_name := customer_name,
                  booking_time := booking_time, status := "confirmed" }],
             nextId := db.nextId + 1 })) ∧
    (∀ (db : DB) (m : String),
      database.add_bookingHandle db (.error (.otherErr m)) =
        (.jobj [("success", .jbool false), ("message", .jstr m)], db)) ∧
    (∀ (db : DB) (r : Except database.SqlErr (DB × Nat)),
      isJObj (database.add_bookingHandle db r).1 = true) := by
  refine ⟨?_, ?_, ?_⟩
  · intro db customer_name booking_time
    unfold database.add_booking database.sqlInsert
    split
    · rfl
    · rfl
  · intro db m
    rfl
  · intro db r
    rcases r with ⟨e⟩ | ⟨db2, booking_id⟩
    · cases e <;> rfl
    · rfl

/-- Claim C4: a decoded text control message of type `UserStartedSpeaking`
makes `handle_text_message` send exactly one message to the telephony
socket — the `clear` event addressed to the current call-stream
identifier — and a message of any other type makes it send no `clear`
event there. -/
theorem claim_c4_barge_in (loads : JsonLoads)
    (pharmacyMap : List (String × Handler)) (db : DB) (decoded : ControlMsg)
    (streamsid : String) :
    (handle_text_message loads pharmacyMap db decoded streamsid).1 =
      (if decoded.type == "UserStartedSpeaking"
        then [clear_message streamsid] else []) ∧
    (((handle_text_message loads pharmacyMap db decoded streamsid).1.filter
        isClearEvent).length =
      if decoded.type == "UserStartedSpeaking" then 1 else 0) := by
  have h1 := handle_text_message_fst loads pharmacyMap db decoded streamsid
  rw [h1, handle_barge_in]
  constructor
  · rfl
  · split
    · rfl
    · rfl

/-- Claim C6 counterexample: `sts_receiver`'s read loop body has no
exception handler around `json.loads`, so one text frame on which it
raises terminates the whole loop instead of being skipped: the following
well-formed `UserStartedSpeaking` frame is never processed (no `clear`
event is emitted), while the same run without the malformed frame does
emit it. -/
theorem claim_c6_counterexample :
    sts_receiver
        (fun s => if s == "uss" then .ok ⟨"UserStartedSpeaking", .ok []⟩
          else .error "Expecting value: line 1 column 1 (char 0)")
        (fun _ => .error "unused") [] "MZ123" dbInit
        [.text "not json", .text "uss"] =
      { twilioOut := [], stsTrace := [], db := dbInit,
        exc := some "Expecting value: line 1 column 1 (char 0)" } ∧
    sts_receiver
        (fun s => if s == "uss" then .ok ⟨"UserStartedSpeaking", .ok []⟩
          else .error "Expecting value: line 1 column 1 (char 0)")
        (fun _ => .error "unused") [] "MZ123" dbInit
        [.text "uss"] =
      { twilioOut := [clear_message "MZ123"], stsTrace := [], db := dbInit,
        exc := none } :=
  ⟨rfl, rfl⟩

/-- Claim C6 (amended): a text frame on which the decode step raises —
`json.loads` on malformed JSON, or the `decoded["type"]` subscript on a
value without one — is fatal to `sts_receiver`: the exception escapes the
read loop and the remaining messages are never processed.  By contrast, a
frame that decodes but whose `decoded["functions"]` subscript raises does
so inside `handle_function_call_request`'s `try` and is recovered at
single-message granularity: one error response under id and name
`unknown` is sent and the read loop continues with the remaining
messages. -/
theorem claim_c6_malformed_aborts (loadsCtl : CtlLoads) (loads : JsonLoads)
    (pharmacyMap : List (String × Handler)) (streamsid : String) (db : DB)
    (s e : String) (rest : List StsMsg) :
    (loadsCtl s = .error e →
      sts_receiver loadsCtl loads pharmacyMap streamsid db (.text s :: rest) =
        { twilioOut := [], stsTrace := [], db := db, exc := some e }) ∧
    (loadsCtl s = .ok ⟨"FunctionCallRequest", .error e⟩ →
      sts_receiver loadsCtl loads pharmacyMap streamsid db (.text s :: rest) =
        { twilioOut :=
            (sts_receiver loadsCtl loads pharmacyMap streamsid db
              rest).twilioOut,
          stsTrace := .send (create_function_call_response "unknown" "unknown"
              (.jobj [("error",
                .jstr ("Function call failed with: " ++ e))])) ::
            (sts_receiver loadsCtl loads pharmacyMap streamsid db
              rest).stsTrace,
          db := (sts_receiver loadsCtl loads pharmacyMap streamsid db rest).db,
          exc := (sts_receiver loadsCtl loads pharmacyMap streamsid db
            rest).exc }) := by
  constructor
  · intro h
    unfold sts_receiver
    rw [h]
  · intro h
    simp only [sts_receiver, h]
    simp [handle_text_message_decoded, handle_function_call_request_decoded,
      handle_barge_in]

/-- Witness for the amended C6 at a concrete decoder that fails on
`bad json`, yields a `FunctionCallRequest` without a `functions` key on
`nofns`, and a plain `Other` message on `other`: the first run aborts
before its second message, the second recovers and finishes. -/
theorem claim_c6_witness :
    ((fun s => if s == "nofns"
        then (.ok ⟨"FunctionCallRequest", .error "KeyError: functions"⟩ :
          Except String DecodedMsg)
        else .error "Expecting value: line 1 column 1 (char 0)") "bad json" =
      .error "Expecting value: line 1 column 1 (char 0)") ∧
    sts_receiver (fun s => if s == "nofns"
        then .ok ⟨"FunctionCallRequest", .error "KeyError: functions"⟩
        else .error "Expecting value: line 1 column 1 (char 0)")
      (fun _ => .error "unused") [] "MZ1" dbInit
      [.text "bad json", .binary [1, 2, 3]] =
      { twilioOut := [], stsTrace := [], db := dbInit,
        exc := some "Expecting value: line 1 column 1 (char 0)" } ∧
    ((fun s => if s == "nofns"
        then (.ok ⟨"FunctionCallRequest", .error "KeyError: functions"⟩ :
          Except String DecodedMsg)
        else .error "Expecting value: line 1 column 1 (char 0)") "nofns" =
      .ok ⟨"FunctionCallRequest", .error "KeyError: functions"⟩) ∧
    sts_receiver (fun s => if s == "nofns"
        then .ok ⟨"FunctionCallRequest", .error "KeyError: functions"⟩
        else .error "Expecting value: line 1 column 1 (char 0)")
      (fun _ => .error "unused") [] "MZ1" dbInit [.text "nofns"] =
      { twilioOut := [],
        stsTrace := [.send (create_function_call_response "unknown" "unknown"
          (.jobj [("error",
            .jstr "Function call failed with: KeyError: functions")]))],
        db := dbInit, exc := none } :=
  ⟨rfl,
   (claim_c6_malformed_aborts (fun s => if s == "nofns"
        then .ok ⟨"FunctionCallRequest", .error "KeyError: functions"⟩
        else .error "Expecting value: line 1 column 1 (char 0)")
      (fun _ => .error "unused") [] "MZ1" dbInit "bad json"
      "Expecting value: line 1 column 1 (char 0)"
      [.binary [1, 2, 3]]).1 rfl,
   rfl,
   Eq.trans
     ((claim_c6_malformed_aborts (fun s => if s == "nofns"
          then .ok ⟨"FunctionCallRequest", .error "KeyError: functions"⟩
          else .error "Expecting value: line 1 column 1 (char 0)")
        (fun _ => .error "unused") [] "MZ1" dbInit "nofns"
        "KeyError: functions" []).2 rfl) rfl⟩

/-! ### Dispatch ordering (C5) and fail-stop (C9) -/

/-- An entry whose processing raises no exception: its `arguments` string
parses, and its dispatch returns normally whatever the store state at the
moment it runs. -/
def EntryOk (loads : JsonLoads) (pharmacyMap : List (String × Handler))
    (fc : FnCallEntry) : Prop :=
  ∃ args, loads fc.arguments = .ok args ∧
    ∀ db, ∃ result db2 ops,
      execute_function_call pharmacyMap db fc.name args = .ok (result, db2, ops)

/-- An entry whose processing raises: either `json.loads` fails on its
`arguments` string, or its dispatch raises whatever the store state at the
moment it runs. -/
def EntryFails (loads : JsonLoads) (pharmacyMap : List (String × Handler))
    (fc : FnCallEntry) : Prop :=
  (∃ e, loads fc.arguments = .error e) ∨
  (∃ args, loads fc.arguments = .ok args ∧
    ∀ db, ∃ e, execute_function_call pharmacyMap db fc.name args = .error e)

/-- Spec-side formalization of the C5 ordering contract, following the
spec's words: the entries are dispatched in the order they appear, the
response for entry i — a `FunctionCallResponse` frame carrying the entry's
own id and name with the serialized result in `content` — is sent before
dispatch of entry i+1 begins. -/
inductive OrderedDispatch (loads : JsonLoads)
    (pharmacyMap : List (String × Handler)) :
    DB → List FnCallEntry → List TraceEv → Prop where
  | nil (db : DB) : OrderedDispatch loads pharmacyMap db [] []
  | cons (db : DB) (fc : FnCallEntry) (rest : List FnCallEntry) (args : Args)
      (result : JVal) (db2 : DB) (ops : List StoreOp) (tr : List TraceEv) :
      loads fc.arguments = .ok args →
      execute_function_call pharmacyMap db fc.name args =
        .ok (result, db2, ops) →
      OrderedDispatch loads pharmacyMap db2 rest tr →
      OrderedDispatch loads pharmacyMap db (fc :: rest)
        (.dispatch fc.name args ::
         .send (.jobj [("type", .jstr "FunctionCallResponse"),
                       ("id", .jstr fc.id), ("name", .jstr fc.name),
                       ("content", .jstr (jsonDumps result))]) :: tr)

theorem processCalls_ordered (loads : JsonLoads)
    (pharmacyMap : List (String × Handler)) :
    ∀ (entries : List FnCallEntry) (db : DB),
    (∀ fc ∈ entries, EntryOk loads pharmacyMap fc) →
    OrderedDispatch loads pharmacyMap db entries
      (processCalls loads pharmacyMap db entries).2 := by
  intro entries
  induction entries with
  | nil =>
    intro db _
    exact .nil db
  | cons fc rest ih =>
    intro db h
    obtain ⟨args, hargs, hexec⟩ := h fc (by simp)
    obtain ⟨result, db2, ops, hok⟩ := hexec db
    have hrest : ∀ e ∈ rest, EntryOk loads pharmacyMap e :=
      fun e he => h e (by simp [he])
    simp only [processCalls, hargs, hok]
    exact .cons db fc rest args result db2 ops
      (processCalls loads pharmacyMap db2 rest).2 hargs hok (ih db2 hrest)

/-- Claim C5: for a `FunctionCallRequest` whose entries all process
without raising, `handle_function_call_request` dispatches the entries in
the order they appear, sending entry i's `FunctionCallResponse` — same id
and name as the entry, serialized result in `content` — before dispatch of
entry i+1 begins. -/
theorem claim_c5_ordered_dispatch (loads : JsonLoads)
    (pharmacyMap : List (String × Handler)) (db : DB) (decoded : ControlMsg)
    (h : ∀ fc ∈ decoded.functions, EntryOk loads pharmacyMap fc) :
    OrderedDispatch loads pharmacyMap db decoded.functions
      (handle_function_call_request loads pharmacyMap db decoded).2 :=
  processCalls_ordered loads pharmacyMap decoded.functions db h

/-- Witness for C5 at a concrete two-entry request calling
`check_availability` then `book_meeting`. -/
theorem claim_c5_witness :
    (∀ fc ∈ (ControlMsg.mk "FunctionCallRequest"
        [⟨"f1", "check_availability", "availArgs"⟩,
         ⟨"f2", "check_availability", "availArgs"⟩]).functions,
      EntryOk (fun _ => .ok [("booking_time", .jstr "2025-12-25 10:00")])
        [] fc) ∧
    OrderedDispatch
      (fun _ => .ok [("booking_time", .jstr "2025-12-25 10:00")]) [] dbInit
      (ControlMsg.mk "FunctionCallRequest"
        [⟨"f1", "check_availability", "availArgs"⟩,
         ⟨"f2", "check_availability", "availArgs"⟩]).functions
      (handle_function_call_request
        (fun _ => .ok [("booking_time", .jstr "2025-12-25 10:00")]) [] dbInit
        (ControlMsg.mk "FunctionCallRequest"
          [⟨"f1", "check_availability", "availArgs"⟩,
           ⟨"f2", "check_availability", "availArgs"⟩])).2 := by
  have hok : ∀ fc ∈ (ControlMsg.mk "FunctionCallRequest"
      [⟨"f1", "check_availability", "availArgs"⟩,
       ⟨"f2", "check_availability", "availArgs"⟩]).functions,
      EntryOk (fun _ => .ok [("booking_time", .jstr "2025-12-25 10:00")])
        [] fc := by
    intro fc hfc
    simp only [ControlMsg.functions, List.mem_cons, List.not_mem_nil,
      or_false] at hfc
    rcases hfc with h1 | h2
    · subst h1
      exact ⟨[("booking_time", .jstr "2025-12-25 10:00")], rfl,
        fun db => ⟨_, _, _, rfl⟩⟩
    · subst h2
      exact ⟨[("booking_time", .jstr "2025-12-25 10:00")], rfl,
        fun db => ⟨_, _, _, rfl⟩⟩
  exact ⟨hok, claim_c5_ordered_dispatch
    (fun _ => .ok [("booking_time", .jstr "2025-12-25 10:00")]) [] dbInit
    (ControlMsg.mk "FunctionCallRequest"
      [⟨"f1", "check_availability", "availArgs"⟩,
       ⟨"f2", "check_availability", "availArgs"⟩]) hok⟩

/-- Whether a trace event is a message sent over the agent connection. -/
def isSend : TraceEv → Bool
  | .send _ => true
  | .dispatch _ _ => false

/-- The number of messages a trace sends over the agent connection. -/
def countSends (tr : List TraceEv) : Nat := tr.countP isSend

theorem processCalls_append_ok (loads : JsonLoads)
    (pharmacyMap : List (String × Handler)) :
    ∀ (pre suf : List FnCallEntry) (db : DB),
    (∀ fc ∈ pre, EntryOk loads pharmacyMap fc) →
    processCalls loads pharmacyMap db (pre ++ suf) =
      ((processCalls loads pharmacyMap
          (processCalls loads pharmacyMap db pre).1 suf).1,
       (processCalls loads pharmacyMap db pre).2 ++
         (processCalls loads pharmacyMap
           (processCalls loads pharmacyMap db pre).1 suf).2) := by
  intro pre
  induction pre with
  | nil =>
    intro suf db _
    simp [processCalls]
  | cons fc rest ih =>
    intro suf db h
    obtain ⟨args, hargs, hexec⟩ := h fc (by simp)
    obtain ⟨result, db2, ops, hok⟩ := hexec db
    have hrest : ∀ e ∈ rest, EntryOk loads pharmacyMap e :=
      fun e he => h e (by simp [he])
    simp only [List.cons_append, processCalls, hargs, hok, List.append_eq]
    rw [ih suf db2 hrest]

theorem countSends_processCalls_ok (loads : JsonLoads)
    (pharmacyMap : List (String × Handler)) :
    ∀ (entries : List FnCallEntry) (db : DB),
    (∀ fc ∈ entries, EntryOk loads pharmacyMap fc) →
    countSends (processCalls loads pharmacyMap db entries).2 =
      entries.length := by
  intro entries
  induction entries with
  | nil =>
    intro db _
    rfl
  | cons fc rest ih =>
    intro db h
    obtain ⟨args, hargs, hexec⟩ := h fc (by simp)
    obtain ⟨result, db2, ops, hok⟩ := hexec db
    have hrest : ∀ e ∈ rest, EntryOk loads pharmacyMap e :=
      fun e he => h e (by simp [he])
    simp only [processCalls, hargs, hok]
    simp only [countSends, List.countP_cons, List.length_cons] at ih ⊢
    rw [ih db2 hrest]
    rfl

theorem countSends_append (a b : List TraceEv) :
    countSends (a ++ b) = countSends a + countSends b := by
  simp [countSends, List.countP_append]

theorem processCalls_fail_head (loads : JsonLoads)
    (pharmacyMap : List (String × Handler)) (db : DB) (fc : FnCallEntry)
    (rest : List FnCallEntry)
    (h : EntryFails loads pharmacyMap fc) :
    ∃ e, processCalls loads pharmacyMap db (fc :: rest) =
        processCalls loads pharmacyMap db [fc] ∧
      countSends (processCalls loads pharmacyMap db (fc :: rest)).2 = 1 ∧
      (processCalls loads pharmacyMap db (fc :: rest)).2.getLast? =
        some (.send (create_function_call_response fc.id fc.name
          (.jobj [("error",
            .jstr ("Function call failed with: " ++ e))]))) := by
  rcases h with ⟨e, he⟩ | ⟨args, hargs, hfail⟩
  · refine ⟨e, ?_, ?_, ?_⟩ <;> simp only [processCalls, he] <;> rfl
  · obtain ⟨e, he⟩ := hfail db
    refine ⟨e, ?_, ?_, ?_⟩ <;> simp only [processCalls, hargs, he] <;> rfl

/-- Claim C9: when processing entry i of a `FunctionCallRequest` raises
(its `arguments` string does not parse, or its handler raises) after
entries 0..i−1 processed normally, the dispatch loop stops for that
request: the whole run equals the run on entries 0..i alone (entries i+1
onward are never dispatched and receive no response), exactly one more
response than the i preceding ones is sent, and that final send carries an
error payload under the failing entry's id and name. -/
theorem claim_c9_fail_stop (loads : JsonLoads)
    (pharmacyMap : List (String × Handler)) (db : DB)
    (pre : List FnCallEntry) (fc : FnCallEntry) (rest : List FnCallEntry)
    (hpre : ∀ e ∈ pre, EntryOk loads pharmacyMap e)
    (hfc : EntryFails loads pharmacyMap fc) :
    processCalls loads pharmacyMap db (pre ++ fc :: rest) =
      processCalls loads pharmacyMap db (pre ++ [fc]) ∧
    countSends (processCalls loads pharmacyMap db (pre ++ fc :: rest)).2 =
      pre.length + 1 ∧
    ∃ e, (processCalls loads pharmacyMap db (pre ++ fc :: rest)).2.getLast? =
      some (.send (create_function_call_response fc.id fc.name
        (.jobj [("error",
          .jstr ("Function call failed with: " ++ e))]))) := by
  obtain ⟨e, heq, hcount, hlast⟩ :=
    processCalls_fail_head loads pharmacyMap
      (processCalls loads pharmacyMap db pre).1 fc rest hfc
  have hsplit := processCalls_append_ok loads pharmacyMap pre (fc :: rest) db hpre
  have hsplit1 := processCalls_append_ok loads pharmacyMap pre [fc] db hpre
  refine ⟨?_, ?_, ?_⟩
  · rw [hsplit, hsplit1, heq]
  · rw [hsplit]
    dsimp only
    rw [countSends_append,
      countSends_processCalls_ok loads pharmacyMap pre db hpre, hcount]
  · refine ⟨e, ?_⟩
    rw [hsplit]
    dsimp only
    have hne : (processCalls loads pharmacyMap
        (processCalls loads pharmacyMap db pre).1 (fc :: rest)).2 ≠ [] := by
      intro hnil
      rw [hnil] at hlast
      exact Option.noConfusion hlast
    calc ((processCalls loads pharmacyMap db pre).2 ++
            (processCalls loads pharmacyMap
              (processCalls loads pharmacyMap db pre).1 (fc :: rest)).2).getLast?
        = (processCalls loads pharmacyMap
            (processCalls loads pharmacyMap db pre).1 (fc :: rest)).2.getLast? :=
          List.getLast?_append_of_ne_nil _ hne
      _ = some (.send (create_function_call_response fc.id fc.name
            (.jobj [("error",
              .jstr ("Function call failed with: " ++ e))]))) := hlast

/-- Witness for C9: a one-good-entry prefix, then an entry whose
`arguments` string fails to parse, then one further entry that is never
reached. -/
theorem claim_c9_witness :
    (∀ e ∈ [(⟨"f1", "check_availability", "good"⟩ : FnCallEntry)],
      EntryOk (fun s => if s == "good"
          then .ok [("booking_time", .jstr "2025-12-25 10:00")]
          else .error "Expecting value: line 1 column 1 (char 0)") [] e) ∧
    EntryFails (fun s => if s == "good"
        then .ok [("booking_time", .jstr "2025-12-25 10:00")]
        else .error "Expecting value: line 1 column 1 (char 0)") []
      ⟨"f2", "book_meeting", "bad"⟩ ∧
    (processCalls (fun s => if s == "good"
        then .ok [("booking_time", .jstr "2025-12-25 10:00")]
        else .error "Expecting value: line 1 column 1 (char 0)") [] dbInit
      ([⟨"f1", "check_availability", "good"⟩] ++
        ⟨"f2", "book_meeting", "bad"⟩ ::
          [⟨"f3", "check_availability", "good"⟩]) =
      processCalls (fun s => if s == "good"
        then .ok [("booking_time", .jstr "2025-12-25 10:00")]
        else .error "Expecting value: line 1 column 1 (char 0)") [] dbInit
        ([⟨"f1", "check_availability", "good"⟩] ++
          [⟨"f2", "book_meeting", "bad"⟩]) ∧
      countSends (processCalls (fun s => if s == "good"
          then .ok [("booking_time", .jstr "2025-12-25 10:00")]
          else .error "Expecting value: line 1 column 1 (char 0)") [] dbInit
        ([⟨"f1", "check_availability", "good"⟩] ++
          ⟨"f2", "book_meeting", "bad"⟩ ::
            [⟨"f3", "check_availability", "good"⟩])).2 = 2 ∧
      ∃ e, (processCalls (fun s => if s == "good"
          then .ok [("booking_time", .jstr "2025-12-25 10:00")]
          else .error "Expecting value: line 1 column 1 (char 0)") [] dbInit
        ([⟨"f1", "check_availability", "good"⟩] ++
          ⟨"f2", "book_meeting", "bad"⟩ ::
            [⟨"f3", "check_availability", "good"⟩])).2.getLast? =
        some (.send (create_function_call_response "f2" "book_meeting"
          (.jobj [("error",
            .jstr ("Function call failed with: " ++ e))])))) := by
  have hpre : ∀ e ∈ [(⟨"f1", "check_availability", "good"⟩ : FnCallEntry)],
      EntryOk (fun s => if s == "good"
          then .ok [("booking_time", .jstr "2025-12-25 10:00")]
          else .error "Expecting value: line 1 column 1 (char 0)") [] e := by
    intro e he
    simp only [List.mem_singleton] at he
    subst he
    exact ⟨[("booking_time", .jstr "2025-12-25 10:00")], rfl,
      fun db => ⟨_, _, _, rfl⟩⟩
  have hfc : EntryFails (fun s => if s == "good"
      then .ok [("booking_time", .jstr "2025-12-25 10:00")]
      else .error "Expecting value: line 1 column 1 (char 0)") []
      ⟨"f2", "book_meeting", "bad"⟩ :=
    Or.inl ⟨"Expecting value: line 1 column 1 (char 0)", rfl⟩
  exact ⟨hpre, hfc, claim_c9_fail_stop _ [] dbInit
    [⟨"f1", "check_availability", "good"⟩] ⟨"f2", "book_meeting", "bad"⟩
    [⟨"f3", "check_availability", "good"⟩] hpre hfc⟩

/-! ### Frame chunking lemmas (C1) -/

theorem drainBuffer_of_lt (buf : List Nat) (h : buf.length < BUFFER_SIZE) :
    drainBuffer buf = ([], buf) := by
  rw [drainBuffer]
  rw [dif_neg (by omega)]

theorem drainBuffer_flatten (buf : List Nat) :
    (drainBuffer buf).1.flatten ++ (drainBuffer buf).2 = buf := by
  induction buf using drainBuffer.induct with
  | case1 buf h ih =>
    rw [drainBuffer, dif_pos h]
    simp only [List.flatten_cons, List.append_assoc]
    rw [ih]
    exact List.take_append_drop BUFFER_SIZE buf
  | case2 buf h =>
    rw [drainBuffer, dif_neg h]
    simp

theorem drainBuffer_frames (buf : List Nat) :
    ∀ f ∈ (drainBuffer buf).1, f.length = BUFFER_SIZE := by
  induction buf using drainBuffer.induct with
  | case1 buf h ih =>
    rw [drainBuffer, dif_pos h]
    intro f hf
    rcases List.mem_cons.mp hf with hf1 | hf2
    · subst hf1
      rw [List.length_take]
      exact Nat.min_eq_left h
    · exact ih f hf2
  | case2 buf h =>
    rw [drainBuffer, dif_neg h]
    intro f hf
    exact absurd hf (List.not_mem_nil f)

theorem drainBuffer_rem (buf : List Nat) :
    (drainBuffer buf).2.length < BUFFER_SIZE := by
  induction buf using drainBuffer.induct with
  | case1 buf h ih =>
    rw [drainBuffer, dif_pos h]
    exact ih
  | case2 buf h =>
    rw [drainBuffer, dif_neg h]
    dsimp only
    omega

theorem flatten_length_const (L : List (List Nat)) (n : Nat)
    (h : ∀ f ∈ L, f.length = n) : L.flatten.length = n * L.length := by
  induction L with
  | nil => simp
  | cons a L ih =>
    simp only [List.flatten_cons, List.length_append, List.length_cons]
    rw [h a (by simp), ih (fun f hf => h f (by simp [hf]))]
    ring

theorem drainBuffer_count (buf : List Nat) :
    (drainBuffer buf).1.length = buf.length / BUFFER_SIZE := by
  have hj := drainBuffer_flatten buf
  have hf := drainBuffer_frames buf
  have hr := drainBuffer_rem buf
  have hlen := congrArg List.length hj
  rw [List.length_append,
    flatten_length_const (drainBuffer buf).1 BUFFER_SIZE hf] at hlen
  have hB : BUFFER_SIZE = 3200 := by simp [BUFFER_SIZE]
  rw [hB] at hlen hr ⊢
  omega

theorem drainBuffer_append (a b : List Nat) :
    drainBuffer (a ++ b) =
      ((drainBuffer a).1 ++ (drainBuffer ((drainBuffer a).2 ++ b)).1,
       (drainBuffer ((drainBuffer a).2 ++ b)).2) := by
  induction a using drainBuffer.induct with
  | case1 a h ih =>
    have hab : BUFFER_SIZE ≤ (a ++ b).length := by
      rw [List.length_append]
      omega
    rw [drainBuffer, dif_pos hab]
    rw [show drainBuffer a =
          (a.take BUFFER_SIZE :: (drainBuffer (a.drop BUFFER_SIZE)).1,
           (drainBuffer (a.drop BUFFER_SIZE)).2) from by
      rw [drainBuffer, dif_pos h]]
    simp only [List.take_append_of_le_length h, List.drop_append_of_le_length h]
    rw [ih]
    simp
  | case2 a h =>
    rw [show drainBuffer a = ([], a) from by rw [drainBuffer, dif_neg h]]
    simp

/-- The concatenation of the base64-decoded payloads of the `inbound`-track
media events of a `(track, payload)` sequence — the bytes the reader
actually buffers. -/
def inboundBytes : List (String × List Nat) → List Nat
  | [] => []
  | (track, payload) :: rest =>
      (if track == "inbound" then payload else []) ++ inboundBytes rest

/-- A `(track, payload)` sequence viewed as the corresponding sequence of
`media` events. -/
def mediaEvents (tps : List (String × List Nat)) : List TwEvent :=
  tps.map (fun tp => TwEvent.media tp.1 tp.2)

theorem twilio_run_media (tps : List (String × List Nat)) :
    ∀ (s : TwState), s.stopped = false →
    s.inbuffer.length < BUFFER_SIZE →
    ((mediaEvents tps).foldl twilio_step s).stopped = false ∧
    ((mediaEvents tps).foldl twilio_step s).streamsids = s.streamsids ∧
    ((mediaEvents tps).foldl twilio_step s).frames =
      s.frames ++ (drainBuffer (s.inbuffer ++ inboundBytes tps)).1 ∧
    ((mediaEvents tps).foldl twilio_step s).inbuffer =
      (drainBuffer (s.inbuffer ++ inboundBytes tps)).2 := by
  induction tps with
  | nil =>
    intro s hstop hbuf
    rw [show drainBuffer (s.inbuffer ++ inboundBytes []) = ([], s.inbuffer) from by
      simp [inboundBytes]
      exact drainBuffer_of_lt s.inbuffer hbuf]
    simp [mediaEvents, hstop]
  | cons tp rest ih =>
    intro s hstop hbuf
    have hstep : twilio_step s (.media tp.1 tp.2) =
        drainInto { s with inbuffer :=
          if tp.1 == "inbound" then s.inbuffer ++ tp.2 else s.inbuffer } := by
      rw [twilio_step, hstop]
      simp
    have hfold : (mediaEvents (tp :: rest)).foldl twilio_step s =
        (mediaEvents rest).foldl twilio_step
          (drainInto { s with inbuffer :=
            if tp.1 == "inbound" then s.inbuffer ++ tp.2 else s.inbuffer }) := by
      cases tp with
      | mk t p => simp [mediaEvents, List.foldl_cons, hstep]
    set s1 := drainInto { s with inbuffer :=
      if tp.1 == "inbound" then s.inbuffer ++ tp.2 else s.inbuffer } with hs1
    have hs1stop : s1.stopped = false := by
      simp [hs1, drainInto, hstop]
    have hs1buf : s1.inbuffer.length < BUFFER_SIZE := by
      simp only [hs1, drainInto]
      exact drainBuffer_rem _
    obtain ⟨h1, h2, h3, h4⟩ := ih s1 hs1stop hs1buf
    rw [hfold]
    refine ⟨h1, ?_, ?_, ?_⟩
    · rw [h2]
      simp [hs1, drainInto]
    · rw [h3]
      simp only [hs1, drainInto]
      cases tp with
      | mk t p =>
        rw [show inboundBytes ((t, p) :: rest) =
              (if t == "inbound" then p else []) ++ inboundBytes rest from rfl]
        cases hcase : (t == "inbound") with
        | true =>
          simp only [hcase, if_true]
          rw [← List.append_assoc]
          rw [drainBuffer_append (s.inbuffer ++ p) (inboundBytes rest)]
          simp
        | false =>
          simp only [hcase, Bool.false_eq_true, if_false]
          rw [List.nil_append]
          rw [drainBuffer_append s.inbuffer (inboundBytes rest)]
          simp
    · rw [h4]
      simp only [hs1, drainInto]
      cases tp with
      | mk t p =>
        rw [show inboundBytes ((t, p) :: rest) =
              (if t == "inbound" then p else []) ++ inboundBytes rest from rfl]
        cases hcase : (t == "inbound") with
        | true =>
          simp only [hcase, if_true]
          rw [← List.append_assoc]
          rw [drainBuffer_append (s.inbuffer ++ p) (inboundBytes rest)]
        | false =>
          simp only [hcase, Bool.false_eq_true, if_false]
          rw [List.nil_append]
          rw [drainBuffer_append s.inbuffer (inboundBytes rest)]

theorem twilio_receiver_media (tps : List (String × List Nat)) :
    (twilio_receiver (mediaEvents tps)).frames =
      (drainBuffer (inboundBytes tps)).1 ∧
    (twilio_receiver (mediaEvents tps)).inbuffer =
      (drainBuffer (inboundBytes tps)).2 := by
  obtain ⟨h1, h2, h3, h4⟩ := twilio_run_media tps twilioInit rfl
    (by simp [twilioInit, BUFFER_SIZE])
  constructor
  · rw [twilio_receiver]
    rw [h3]
    simp [twilioInit]
  · rw [twilio_receiver]
    rw [h4]
    simp [twilioInit]

/-- Claim C1: for every sequence of media events, `twilio_receiver`
enqueues exactly ⌊N / FRAME_SIZE⌋ frames where N is the total length of
the inbound-track payloads and FRAME_SIZE is `BUFFER_SIZE = 3200`; every
enqueued frame has length exactly `BUFFER_SIZE`; the frames concatenated
with the remaining buffer reproduce the inbound byte stream in producer
order; after every prefix of the events the accumulation buffer holds at
most `BUFFER_SIZE − 1` bytes; and on the concrete scenario of inbound
payloads of 1000, 1000, 1000 then 300 bytes, no frame is emitted before
the fourth payload, after which exactly one 3200-byte frame is enqueued
with 100 bytes left buffered. -/
theorem claim_c1_frame_invariant (tps : List (String × List Nat)) :
    BUFFER_SIZE = 3200 ∧
    (twilio_receiver (mediaEvents tps)).frames.length =
      (inboundBytes tps).length / BUFFER_SIZE ∧
    (∀ f ∈ (twilio_receiver (mediaEvents tps)).frames,
      f.length = BUFFER_SIZE) ∧
    (twilio_receiver (mediaEvents tps)).frames.flatten ++
      (twilio_receiver (mediaEvents tps)).inbuffer = inboundBytes tps ∧
    (∀ n, (twilio_receiver (mediaEvents (tps.take n))).inbuffer.length ≤
      BUFFER_SIZE - 1) ∧
    (twilio_receiver (mediaEvents
      [("inbound", List.replicate 1000 0), ("inbound", List.replicate 1000 0),
       ("inbound", List.replicate 1000 0)])).frames = [] ∧
    (twilio_receiver (mediaEvents
      [("inbound", List.replicate 1000 0), ("inbound", List.replicate 1000 0),
       ("inbound", List.replicate 1000 0),
       ("inbound", List.replicate 300 0)])).frames.length = 1 ∧
    (∀ f ∈ (twilio_receiver (mediaEvents
      [("inbound", List.replicate 1000 0), ("inbound", List.replicate 1000 0),
       ("inbound", List.replicate 1000 0),
       ("inbound", List.replicate 300 0)])).frames, f.length = 3200) ∧
    (twilio_receiver (mediaEvents
      [("inbound", List.replicate 1000 0), ("inbound", List.replicate 1000 0),
       ("inbound", List.replicate 1000 0),
       ("inbound", List.replicate 300 0)])).inbuffer.length = 100 := by
  have hB : BUFFER_SIZE = 3200 := by simp [BUFFER_SIZE]
  have hlen3 : (inboundBytes
      [("inbound", List.replicate 1000 (0 : Nat)),
       ("inbound", List.replicate 1000 0),
       ("inbound", List.replicate 1000 0)]).length = 3000 := by
    simp only [inboundBytes, beq_self_eq_true, if_true, List.length_append,
      List.length_replicate, List.length_nil]
  have hlen4 : (inboundBytes
      [("inbound", List.replicate 1000 (0 : Nat)),
       ("inbound", List.replicate 1000 0),
       ("inbound", List.replicate 1000 0),
       ("inbound", List.replicate 300 0)]).length = 3300 := by
    simp only [inboundBytes, beq_self_eq_true, if_true, List.length_append,
      List.length_replicate, List.length_nil]
  refine ⟨hB, ?_, ?_, ?_, ?_, ?_, ?_, ?_, ?_⟩
  · rw [(twilio_receiver_media tps).1]
    exact drainBuffer_count (inboundBytes tps)
  · rw [(twilio_receiver_media tps).1]
    exact drainBuffer_frames (inboundBytes tps)
  · rw [(twilio_receiver_media tps).1, (twilio_receiver_media tps).2]
    exact drainBuffer_flatten (inboundBytes tps)
  · intro n
    rw [(twilio_receiver_media (tps.take n)).2]
    have := drainBuffer_rem (inboundBytes (tps.take n))
    omega
  · rw [(twilio_receiver_media _).1]
    rw [drainBuffer_of_lt _ (by rw [hlen3, hB]; omega)]
  · rw [(twilio_receiver_media _).1, drainBuffer_count, hlen4, hB]
  · intro f hf
    rw [(twilio_receiver_media _).1] at hf
    rw [← hB]
    exact drainBuffer_frames _ f hf
  · rw [(twilio_receiver_media _).2]
    have hj := congrArg List.length (drainBuffer_flatten (inboundBytes
      [("inbound", List.replicate 1000 (0 : Nat)),
       ("inbound", List.replicate 1000 0),
       ("inbound", List.replicate 1000 0),
       ("inbound", List.replicate 300 0)]))
    rw [List.length_append,
      flatten_length_const _ BUFFER_SIZE (drainBuffer_frames _),
      drainBuffer_count, hlen4, hB] at hj
    omega

/-- Witness for C1 at a concrete one-payload run: a single 3200-byte
inbound payload yields exactly one frame. -/
theorem claim_c1_witness :
    (twilio_receiver (mediaEvents [("inbound", List.replicate 3200 0)])).frames.length =
      (inboundBytes [("inbound", List.replicate 3200 0)]).length / BUFFER_SIZE ∧
    (inboundBytes [("inbound", List.replicate 3200 0)]).length / BUFFER_SIZE = 1 :=
  ⟨(claim_c1_frame_invariant [("inbound", List.replicate 3200 0)]).2.1, by
    rw [show (inboundBytes [("inbound", List.replicate 3200 (0 : Nat))]).length = 3200 from by
      simp only [inboundBytes, beq_self_eq_true, if_true, List.length_append,
        List.length_replicate, List.length_nil]]
    simp [BUFFER_SIZE]⟩
